import Mathlib

/-!
Verification development for the response-normalization core of the
LLM-gateway repository (file backend/utils/responseParser.js together with
the envelope constructors of backend/utils/helpers.js).

The JavaScript code is shallowly embedded: JavaScript values are the
inductive type JVal, JSON.parse is modelled by the executable fuel-based
parser jsonParse, the three regular expressions of the source are modelled
by executable scanning functions with the same leftmost-match semantics,
and code locations at which JavaScript may raise an exception are embedded
in the Except monad; a surrounding try/catch corresponds to matching on
the Except result.  Numbers are modelled by Rat (the development never
depends on binary floating-point artefacts; JavaScript NaN is the
constructor JVal.nan).  Timestamps (Date.now / toISOString) are modelled
by a String parameter called now that is threaded to every envelope
constructor.
-/

/-- A JavaScript runtime value as far as the response parser observes it:
null, undefined, NaN, booleans, (rational) numbers, strings, arrays and
plain objects given as association lists in property-creation order. -/
inductive JVal where
  | null : JVal
  | undefined : JVal
  | nan : JVal
  | bool : Bool → JVal
  | num : Rat → JVal
  | str : String → JVal
  | arr : List JVal → JVal
  | obj : List (String × JVal) → JVal

/-- JavaScript truthiness: null, undefined, NaN, false, 0 and the empty
string are falsy; every other value (including empty arrays and empty
objects) is truthy. -/
def jsTruthy : JVal → Bool
  | .null => false
  | .undefined => false
  | .nan => false
  | .bool b => b
  | .num q => !(q = 0)
  | .str s => !(s = "")
  | .arr _ => true
  | .obj _ => true

/-- Value of the last binding of a key in an association list; JavaScript
object literals and JSON.parse keep the last duplicate key. -/
def lastField : List (String × JVal) → String → Option JVal
  | [], _ => none
  | (k, v) :: rest, key =>
    match lastField rest key with
    | some r => some r
    | none => if k = key then some v else none

/-- Property read v[k] for the properties this code uses.  On objects it is
an association-list lookup, arrays and strings expose length, every other
read yields undefined.  Reads whose base is null or undefined throw in
JavaScript; they are embedded separately as getF. -/
def getField (v : JVal) (k : String) : JVal :=
  match v with
  | .obj fs => (lastField fs k).getD .undefined
  | .arr xs => if k = "length" then .num xs.length else .undefined
  | .str s => if k = "length" then .num s.length else .undefined
  | _ => .undefined

/-- Property read embedded in Except: reading a property of null or
undefined throws a TypeError in JavaScript. -/
def getF (v : JVal) (k : String) : Except String JVal :=
  match v with
  | .null => .error ("TypeError: cannot read properties of null")
  | .undefined => .error ("TypeError: cannot read properties of undefined")
  | _ => .ok (getField v k)

/-- Optional-chaining read m?.k: yields undefined instead of throwing when
the base is null or undefined. -/
def getOpt (v : JVal) (k : String) : JVal :=
  match v with
  | .null => .undefined
  | .undefined => .undefined
  | _ => getField v k

/-- The JavaScript expression a || b. -/
def jsOr (a b : JVal) : JVal := if jsTruthy a then a else b

/-- The JavaScript expression a || 0, the default used for token counts. -/
def jsOrZero (a : JVal) : JVal := if jsTruthy a then a else .num 0

/-- Indexing expression xs[0].  The bases occurring in the source are
guarded to be truthy, hence never null or undefined. -/
def jsIdx0 : JVal → JVal
  | .arr (x :: _) => x
  | .str s =>
    match s.data with
    | c :: _ => .str (String.singleton c)
    | [] => .undefined
  | _ => .undefined

/-- Strict comparison v === n against a number literal. -/
def jsStrictEqNum (v : JVal) (n : Rat) : Bool :=
  match v with
  | .num m => m = n
  | _ => false

/-- Decimal rendering of a rational; JavaScript's exact double-to-string
algorithm is not needed by any stated property, so non-integral values are
rendered as a fraction. -/
def ratToString (q : Rat) : String :=
  if q.den = 1 then toString q.num else toString q.num ++ "/" ++ toString q.den

mutual

/-- JavaScript ToString on the values of this development (arrays render as
their elements joined by commas, objects as [object Object]). -/
def jsToString : JVal → String
  | .null => "null"
  | .undefined => "undefined"
  | .nan => "NaN"
  | .bool true => "true"
  | .bool false => "false"
  | .num q => ratToString q
  | .str s => s
  | .arr xs => jsArrToString xs
  | .obj _ => "[object Object]"

/-- Array.prototype.toString: elements joined by commas, null and undefined
elements rendering as the empty string. -/
def jsArrToString : List JVal → String
  | [] => ""
  | [x] =>
    match x with
    | .null => ""
    | .undefined => ""
    | v => jsToString v
  | x :: xs =>
    (match x with
     | .null => ""
     | .undefined => ""
     | v => jsToString v) ++ "," ++ jsArrToString xs

end

/-- ToPrimitive with the default hint: arrays and objects convert through
their toString, primitives are unchanged. -/
def toPrimitive (v : JVal) : JVal :=
  match v with
  | .arr xs => .str (jsArrToString xs)
  | .obj _ => .str "[object Object]"
  | x => x

/-- Whitespace recognised by JSON.parse. -/
def isJsonWs (c : Char) : Bool :=
  c = ' ' || c = '\t' || c = '\n' || c = '\r'

/-- Whitespace class of the regex escape backslash-s (the characters that
occur in this development; Unicode space classes are not needed). -/
def isJsWs (c : Char) : Bool :=
  c = ' ' || c = '\t' || c = '\n' || c = '\r' || c = '\x0b' || c = '\x0c'

def skipWs (cs : List Char) : List Char := cs.dropWhile isJsonWs

def digitsToNat (ds : List Char) : Nat :=
  ds.foldl (fun a c => a * 10 + (c.toNat - 48)) 0

/-- Numeric literal of the JSON grammar: optional minus, integer part
without leading zeros, optional fraction, optional exponent. -/
def parseJsonNumber (cs : List Char) : Option (Rat × List Char) :=
  let (neg, cs1) :=
    match cs with
    | '-' :: r => (true, r)
    | _ => (false, cs)
  let intPart : Option (List Char × List Char) :=
    match cs1 with
    | '0' :: r =>
      match r with
      | c :: _ => if c.isDigit then none else some (['0'], r)
      | [] => some (['0'], [])
    | c :: r =>
      if c.isDigit then
        let (ds, rest) := r.span Char.isDigit
        some (c :: ds, rest)
      else none
    | [] => none
  match intPart with
  | none => none
  | some (ids, rest1) =>
    let fracPart : Option (List Char × List Char) :=
      match rest1 with
      | '.' :: r =>
        let (ds, rest) := r.span Char.isDigit
        if ds = [] then none else some (ds, rest)
      | _ => some ([], rest1)
    match fracPart with
    | none => none
    | some (fds, rest2) =>
      let expPart : Option (Int × List Char) :=
        match rest2 with
        | 'e' :: r | 'E' :: r =>
          let (esign, r1) :=
            match r with
            | '+' :: rr => ((1 : Int), rr)
            | '-' :: rr => ((-1 : Int), rr)
            | _ => ((1 : Int), r)
          let (eds, rest) := r1.span Char.isDigit
          if eds = [] then none else some (esign * (digitsToNat eds : Int), rest)
        | _ => some (0, rest2)
      match expPart with
      | none => none
      | some (e, rest3) =>
        let mantissa : Rat := (digitsToNat (ids ++ fds) : Rat) / ((10 : Rat) ^ fds.length)
        let scaled : Rat :=
          if 0 ≤ e then mantissa * (10 : Rat) ^ e.toNat
          else mantissa / (10 : Rat) ^ (-e).toNat
        some (if neg then -scaled else scaled, rest3)

def hexVal (c : Char) : Option Nat :=
  if c.isDigit then some (c.toNat - 48)
  else if 'a' ≤ c && c ≤ 'f' then some (c.toNat - 87)
  else if 'A' ≤ c && c ≤ 'F' then some (c.toNat - 55)
  else none

/-- Characters of a JSON string literal after the opening quote, with the
escape sequences of the JSON grammar; returns the decoded characters and
the remainder after the closing quote. -/
def parseStrChars : List Char → Option (List Char × List Char)
  | [] => none
  | '"' :: r => some ([], r)
  | '\\' :: 'u' :: h1 :: h2 :: h3 :: h4 :: r =>
    match hexVal h1, hexVal h2, hexVal h3, hexVal h4 with
    | some a, some b, some c, some d =>
      (parseStrChars r).map (fun p =>
        (Char.ofNat (((a * 16 + b) * 16 + c) * 16 + d) :: p.1, p.2))
    | _, _, _, _ => none
  | '\\' :: e :: r =>
    let esc : Option Char :=
      if e = '"' then some '"'
      else if e = '\\' then some '\\'
      else if e = '/' then some '/'
      else if e = 'b' then some '\x08'
      else if e = 'f' then some '\x0c'
      else if e = 'n' then some '\n'
      else if e = 'r' then some '\r'
      else if e = 't' then some '\t'
      else none
    match esc with
    | some c => (parseStrChars r).map (fun p => (c :: p.1, p.2))
    | none => none
  | c :: r => (parseStrChars r).map (fun p => (c :: p.1, p.2))

mutual

/-- Fuel-indexed JSON value parser modelling JSON.parse; returns the value
and the unconsumed remainder. -/
def parseV : Nat → List Char → Option (JVal × List Char)
  | 0, _ => none
  | Nat.succ f, cs =>
    match skipWs cs with
    | [] => none
    | c :: r =>
      if c = '{' then
        (match skipWs r with
         | '}' :: r2 => some (.obj [], r2)
         | r2 => (parseMembers f r2).map (fun p => (.obj p.1, p.2)))
      else if c = '[' then
        (match skipWs r with
         | ']' :: r2 => some (.arr [], r2)
         | r2 => (parseItems f r2).map (fun p => (.arr p.1, p.2)))
      else if c = '"' then
        (parseStrChars r).map (fun p => (.str p.1.asString, p.2))
      else if c = 't' then
        (match r with
         | 'r' :: 'u' :: 'e' :: r2 => some (.bool true, r2)
         | _ => none)
      else if c = 'f' then
        (match r with
         | 'a' :: 'l' :: 's' :: 'e' :: r2 => some (.bool false, r2)
         | _ => none)
      else if c = 'n' then
        (match r with
         | 'u' :: 'l' :: 'l' :: r2 => some (.null, r2)
         | _ => none)
      else if c = '-' || c.isDigit then
        (parseJsonNumber (c :: r)).map (fun p => (.num p.1, p.2))
      else none

/-- Comma-separated array items up to the closing bracket. -/
def parseItems : Nat → List Char → Option (List JVal × List Char)
  | 0, _ => none
  | Nat.succ f, cs =>
    match parseV f cs with
    | none => none
    | some (v, r) =>
      match skipWs r with
      | ',' :: r2 => (parseItems f r2).map (fun p => (v :: p.1, p.2))
      | ']' :: r2 => some ([v], r2)
      | _ => none

/-- Comma-separated object members up to the closing brace; the input is
expected at the first key (whitespace already skipped). -/
def parseMembers : Nat → List Char → Option (List (String × JVal) × List Char)
  | 0, _ => none
  | Nat.succ f, cs =>
    match cs with
    | '"' :: r =>
      (match parseStrChars r with
       | none => none
       | some (kcs, r2) =>
         match skipWs r2 with
         | ':' :: r3 =>
           (match parseV f r3 with
            | none => none
            | some (v, r4) =>
              match skipWs r4 with
              | ',' :: r5 => (parseMembers f (skipWs r5)).map
                  (fun p => ((kcs.asString, v) :: p.1, p.2))
              | '}' :: r5 => some ([(kcs.asString, v)], r5)
              | _ => none)
         | _ => none)
    | _ => none

end

/-- JSON.parse: whole-input parse; returns none where JavaScript throws a
SyntaxError.  The fuel bound exceeds the number of recursive descents any
input of this length can force. -/
def jsonParse (s : String) : Option JVal :=
  match parseV (s.length + 8) s.data with
  | some (v, rest) => if skipWs rest = [] then some v else none
  | none => none

/-- ToNumber of a string: trimmed empty string is 0, otherwise the numeric
literal grammar (the inputs arising here are decimal). -/
def strToNumber (s : String) : Option Rat :=
  let t := ((s.data.dropWhile isJsWs).reverse.dropWhile isJsWs).reverse
  if t = [] then some 0
  else
    match parseJsonNumber t with
    | some (q, []) => some q
    | _ => none

/-- JavaScript ToNumber; none models NaN. -/
def toNumber : JVal → Option Rat
  | .null => some 0
  | .undefined => none
  | .nan => none
  | .bool b => some (if b then 1 else 0)
  | .num q => some q
  | .str s => strToNumber s
  | .arr xs => strToNumber (jsArrToString xs)
  | .obj _ => none

/-- The JavaScript binary + operator: after ToPrimitive, string
concatenation if either side is a string, numeric addition otherwise. -/
def jsAdd (a b : JVal) : JVal :=
  match toPrimitive a, toPrimitive b with
  | .str s, y => .str (s ++ jsToString y)
  | x, .str s => .str (jsToString x ++ s)
  | x, y =>
    match toNumber x, toNumber y with
    | some p, some q => .num (p + q)
    | _, _ => .nan

/-- Index of the first occurrence of pat in cs (String.prototype.includes
and the leftmost-match rule of the regexes below). -/
def findSubIdx : List Char → List Char → Option Nat
  | [], pat => if List.isPrefixOf pat [] then some 0 else none
  | c :: r, pat =>
    if List.isPrefixOf pat (c :: r) then some 0
    else (findSubIdx r pat).map (fun i => i + 1)

/-- String.prototype.includes. -/
def strIncludes (s sub : String) : Bool := (findSubIdx s.data sub.data).isSome

/-- The remainder of cs after the first occurrence of pat. -/
def afterFirst (cs pat : List Char) : Option (List Char) :=
  (findSubIdx cs pat).map (fun i => cs.drop (i + pat.length))

/-- Trim the whitespace class of the regexes from both ends. -/
def trimJsWs (cs : List Char) : List Char :=
  ((cs.dropWhile isJsWs).reverse.dropWhile isJsWs).reverse

/-- Capture group of a fenced-block regex: the text between the first
occurrence of the opening tag and the next triple backtick, with
surrounding whitespace stripped (the two greedy backslash-s-star groups of
the regex). -/
def fenceInterior (cs tag : List Char) : Option String :=
  match afterFirst cs tag with
  | none => none
  | some rest =>
    match findSubIdx rest ("```".data) with
    | none => none
    | some j => some (trimJsWs (rest.take j)).asString

/-- Capture of the json-tagged fence regex of extractJsonFromResponse. -/
def jsonFenceMatch (s : String) : Option String :=
  fenceInterior s.data ("```json".data)

/-- Capture of the generic fence regex of extractJsonFromResponse. -/
def genericFenceMatch (s : String) : Option String :=
  fenceInterior s.data ("```".data)

/-- Leftmost match of the non-nested brace regex: the first opening brace
whose next brace character is a closing brace, with the enclosed text. -/
def braceMatch : List Char → Option String
  | [] => none
  | c :: rest =>
    if c = '{' then
      let p := rest.span (fun d => !(d = '{') && !(d = '}'))
      match p.2 with
      | '}' :: _ => some (('{' :: p.1 ++ ['}']).asString)
      | _ => braceMatch rest
    else braceMatch rest

/-- The single-quote character, written by code point. -/
def quoteChar : Char := Char.ofNat 39

def isQuote (c : Char) : Bool := c = quoteChar || c = '"'

/-- Attempt of the call_tool regex tail at one candidate position, starting
just after the literal call_tool and opening parenthesis: quote, non-empty
name run, quote (the character class allows either quote on both sides),
comma with surrounding whitespace, then a brace group without closing
braces, whitespace, closing parenthesis.  Returns the name and the
characters inside the brace group. -/
def callToolAfter (cs : List Char) : Option (String × List Char) :=
  match cs.dropWhile isJsWs with
  | q :: rest =>
    if isQuote q then
      let p := rest.span (fun d => !(isQuote d))
      match p.2 with
      | _ :: rest3 =>
        if p.1 = [] then none
        else
          match rest3.dropWhile isJsWs with
          | ',' :: rest5 =>
            (match rest5.dropWhile isJsWs with
             | '{' :: rest7 =>
               let pb := rest7.span (fun d => !(d = '}'))
               (match pb.2 with
                | '}' :: rest9 =>
                  (match rest9.dropWhile isJsWs with
                   | ')' :: _ => some (p.1.asString, pb.1)
                   | _ => none)
                | _ => none)
             | _ => none)
          | _ => none
      | [] => none
    else none
  | [] => none

/-- Leftmost-match scan of the call_tool regex: each occurrence of the
literal prefix is tried in order. -/
def callToolScan : List Char → Option (String × List Char)
  | [] => none
  | c :: rest =>
    if List.isPrefixOf ("call_tool(".data) (c :: rest) then
      match callToolAfter ((c :: rest).drop ("call_tool(".length)) with
      | some r => some r
      | none => callToolScan rest
    else callToolScan rest

/-- The call_tool regex on a string: name capture and full brace-group
capture (match[1] and match[2] of the source). -/
def callToolMatch (s : String) : Option (String × String) :=
  (callToolScan s.data).map (fun p => (p.1, (('{' :: p.2) ++ ['}']).asString))

/-- Brace-scan step of extractJsonFromResponse: a parse failure of the
matched group is an uncaught throw inside the inner catch block, embedded
as Except.error. -/
def extractJsonStep4 (content : String) : Except String (Option JVal) :=
  match braceMatch content.data with
  | some sub =>
    (match jsonParse sub with
     | some v => .ok (some v)
     | none => .error ("SyntaxError: unexpected token"))
  | none => .ok none

/-- Generic-fence step of extractJsonFromResponse: the parse attempt is
wrapped in its own try/catch, so a failure falls through to the brace
scan. -/
def extractJsonStep3 (content : String) : Except String (Option JVal) :=
  match genericFenceMatch content with
  | some interior =>
    if interior = "" then extractJsonStep4 content
    else
      (match jsonParse interior with
       | some v => .ok (some v)
       | none => extractJsonStep4 content)
  | none => extractJsonStep4 content

/-- Body of extractJsonFromResponse inside its outer try/catch: whole-input
parse, then the json-tagged fence (whose parse failure is an uncaught
throw), then the generic fence, then the brace scan. -/
def extractJsonCore (content : String) : Except String (Option JVal) :=
  match jsonParse content with
  | some v => .ok (some v)
  | none =>
    match jsonFenceMatch content with
    | some interior =>
      if interior = "" then extractJsonStep3 content
      else
        (match jsonParse interior with
         | some v => .ok (some v)
         | none => .error ("SyntaxError: unexpected token"))
    | none => extractJsonStep3 content

/-- extractJsonFromResponse: the outer catch converts any escaped throw
into null. -/
def extractJsonFromResponse (content : String) : Option JVal :=
  match extractJsonCore content with
  | .ok o => o
  | .error _ => none

/-- Transcription of the specification's step 4 for extractJson: parse the
first non-nested brace group. -/
def extractJsonSpecStep4 (text : String) : Option JVal :=
  match braceMatch text.data with
  | some sub => jsonParse sub
  | none => none

/-- Transcription of the specification's step 3 for extractJson: attempt
the first generic fenced block, a parse failure being swallowed so that
processing continues with step 4. -/
def extractJsonSpecStep3 (text : String) : Option JVal :=
  match genericFenceMatch text with
  | some interior =>
    if interior = "" then extractJsonSpecStep4 text
    else
      match jsonParse interior with
      | some v => some v
      | none => extractJsonSpecStep4 text
  | none => extractJsonSpecStep4 text

/-- Definition following the specification's words for extractJson (steps
1, 2, 3, 4, 5 in order): whole-string parse first regardless of fences;
else the first json-tagged fenced block's interior (when one with
non-empty interior exists) is parsed and that parse's outcome is the
result; else the generic-fence step; else the brace scan; else null.  It
is compared with the source-derived extractJsonFromResponse. -/
def extractJsonSpec (text : String) : Option JVal :=
  match jsonParse text with
  | some v => some v
  | none =>
    match jsonFenceMatch text with
    | some interior =>
      if interior = "" then extractJsonSpecStep3 text
      else jsonParse interior
    | none => extractJsonSpecStep3 text

/-- Truthiness of the value returned by extractJsonFromResponse (null when
none). -/
def jsTruthyOpt : Option JVal → Bool
  | none => false
  | some v => jsTruthy v

/-- Regex fallback of extractToolCall: on a call_tool match the brace group
is JSON-parsed; a parse failure is caught, a warning logged, and the
function then returns null (the final return of the source). -/
def regexToolFallback (content : String) : Option JVal :=
  match callToolMatch content with
  | some na =>
    (match jsonParse na.2 with
     | some v => some (.obj [("name", .str na.1), ("arguments", v)])
     | none => none)
  | none => none

/-- Body of extractToolCall inside its outer try/catch, with property reads
embedded through getF (the reads are guarded by the truthiness test on the
extracted JSON, so no read can actually throw). -/
def extractToolCallCore (content : String) : Except String (Option JVal) :=
  let json := extractJsonFromResponse content
  if jsTruthyOpt json then
    let j := json.getD .null
    match getF j ("tool_call") with
    | .error e => .error e
    | .ok tc1 =>
      match getF j ("function_call") with
      | .error e => .error e
      | .ok tc2 =>
        if jsTruthy (jsOr tc1 tc2) then
          .ok (some (jsOr tc1 tc2))
        else
          match getF j ("name") with
          | .error e => .error e
          | .ok nm =>
            match getF j ("parameters") with
            | .error e => .error e
            | .ok params =>
              match getF j ("arguments") with
              | .error e => .error e
              | .ok args =>
                if jsTruthy nm && jsTruthy (jsOr params args) then
                  .ok (some (.obj [("name", nm), ("arguments", jsOr params args)]))
                else
                  .ok (regexToolFallback content)
  else
    .ok (regexToolFallback content)

/-- extractToolCall: the outer catch converts any escaped throw into
null. -/
def extractToolCall (content : String) : Option JVal :=
  match extractToolCallCore content with
  | .ok o => o
  | .error _ => none

/-- The result produced by the JSON-extraction steps of extractToolCall
alone (none when control falls through to the regex fallback); used to
state under which circumstances the regex path is reached. -/
def toolCallJsonPath (content : String) : Option JVal :=
  match extractJsonFromResponse content with
  | some j =>
    if jsTruthy j then
      if jsTruthy (jsOr (getField j ("tool_call")) (getField j ("function_call"))) then
        some (jsOr (getField j ("tool_call")) (getField j ("function_call")))
      else if jsTruthy (getField j ("name"))
          && jsTruthy (jsOr (getField j ("parameters")) (getField j ("arguments"))) then
        some (.obj [("name", getField j ("name")),
                    ("arguments", jsOr (getField j ("parameters")) (getField j ("arguments")))])
      else none
    else none
  | none => none

/-- Result record of processFunctionCall. -/
structure ProcessedCall where
  toolName : JVal
  parameters : JVal
  timestamp : String

/-- processFunctionCall: throws on a missing or falsy name; otherwise
arguments default to an empty object, string arguments are JSON-parsed
with an empty object substituted when that parse fails, and a fresh
server-side timestamp (the now parameter) is stamped.  The outer catch
rethrows the same "Invalid function call format" error. -/
def processFunctionCall (now : String) (functionCall : JVal) : Except String ProcessedCall :=
  if !(jsTruthy functionCall) || !(jsTruthy (getField functionCall ("name"))) then
    .error ("Invalid function call format")
  else
    let args0 := jsOr (getField functionCall ("arguments")) (.obj [])
    let args :=
      match args0 with
      | .str s =>
        (match jsonParse s with
         | some v => v
         | none => JVal.obj [])
      | a => a
    .ok ⟨getField functionCall ("name"), args, now⟩

/-- The canonical error envelope of createErrorResponse (helpers.js): the
literal field error: true is implied by the type, the remaining fields are
message, statusCode, details, timestamp. -/
structure ErrorEnv where
  message : String
  statusCode : JVal
  details : JVal
  timestamp : String

/-- createErrorResponse of helpers.js, timestamp supplied as now. -/
def createErrorResponse (now message : String) (statusCode : JVal) (details : JVal) : ErrorEnv :=
  ⟨message, statusCode, details, now⟩

/-- Usage statistics of a normalized response. -/
structure ParsedStats where
  promptTokens : JVal
  completionTokens : JVal
  totalTokens : JVal

/-- The data part of a canonical success envelope. -/
structure ParsedPayload where
  content : JVal
  isFunctionCall : Bool
  functionCall : JVal
  model : JVal
  finishReason : JVal
  stats : ParsedStats

/-- A parser's result: the success envelope of createSuccessResponse
(error: false, message, data, timestamp) or the error envelope. -/
inductive ParseResult where
  | success : ParsedPayload → String → String → ParseResult
  | failure : ErrorEnv → ParseResult

/-- createSuccessResponse of helpers.js with its default message. -/
def createSuccessResponse (now : String) (d : ParsedPayload) : ParseResult :=
  .success d ("Operation successful") now

/-- The catch branch shared by every provider parser: a 500 error envelope
carrying the original exception message in details.originalError. -/
def parserCatch (now msg orig : String) : ParseResult :=
  .failure (createErrorResponse now msg (.num 500) (.obj [("originalError", .str orig)]))

/-- The try/catch pattern shared by every provider parser: a successful
try-block body is wrapped by createSuccessResponse, an exception by the
catch branch. -/
def wrapParse (now msg : String) (core : Except String ParsedPayload) : ParseResult :=
  match core with
  | .ok p => createSuccessResponse now p
  | .error e => parserCatch now msg e

/-- Try-block body of parseOpenAIResponse. -/
def parseOpenAICore (response : JVal) : Except String ParsedPayload :=
  if !(jsTruthy response) || !(jsTruthy (getField response ("choices")))
      || jsStrictEqNum (getField (getField response ("choices")) ("length")) 0 then
    .error ("Invalid OpenAI response format")
  else
    let choices := getField response ("choices")
    let firstChoice := jsIdx0 choices
    match getF firstChoice ("message") with
    | .error e => .error e
    | .ok msg =>
      let content :=
        if jsTruthy msg then jsOr (getField msg ("content")) (.str "")
        else if jsTruthy (getField firstChoice ("text")) then getField firstChoice ("text")
        else .str ""
      let isFC := jsTruthy msg && jsTruthy (getField msg ("function_call"))
      let fc :=
        if jsTruthy msg && jsTruthy (getField msg ("function_call")) then
          JVal.obj [("name", getField (getField msg ("function_call")) ("name")),
                    ("arguments", getField (getField msg ("function_call")) ("arguments"))]
        else JVal.null
      let usage := jsOr (getField response ("usage")) (.obj [])
      .ok {
        content := content,
        isFunctionCall := isFC,
        functionCall := fc,
        model := getField response ("model"),
        finishReason := jsOr (getField firstChoice ("finish_reason")) (.str "unknown"),
        stats := ⟨jsOrZero (getField usage ("prompt_tokens")),
                  jsOrZero (getField usage ("completion_tokens")),
                  jsOrZero (getField usage ("total_tokens"))⟩ }

/-- parseOpenAIResponse with its try/catch. -/
def parseOpenAIResponse (now : String) (response : JVal) : ParseResult :=
  wrapParse now ("Failed to parse OpenAI response") (parseOpenAICore response)

/-- parseAzureOpenAIResponse delegates to the OpenAI parser; its own catch
can never fire because the delegate returns instead of throwing. -/
def parseAzureOpenAIResponse (now : String) (response : JVal) : ParseResult :=
  parseOpenAIResponse now response

/-- Try-block body of parseClaudeResponse. -/
def parseClaudeCore (response : JVal) : Except String ParsedPayload :=
  if !(jsTruthy response) || !(jsTruthy (getField response ("completion"))) then
    .error ("Invalid Claude response format")
  else
    let usage := jsOr (getField response ("usage")) (.obj [])
    .ok {
      content := getField response ("completion"),
      isFunctionCall := false,
      functionCall := .null,
      model := jsOr (getField response ("model")) (.str "claude"),
      finishReason := jsOr (getField response ("stop_reason")) (.str "unknown"),
      stats := ⟨jsOrZero (getField usage ("input_tokens")),
                jsOrZero (getField usage ("output_tokens")),
                jsAdd (jsOrZero (getField usage ("input_tokens")))
                      (jsOrZero (getField usage ("output_tokens")))⟩ }

/-- parseClaudeResponse with its try/catch. -/
def parseClaudeResponse (now : String) (response : JVal) : ParseResult :=
  wrapParse now ("Failed to parse Claude response") (parseClaudeCore response)

/-- The map callback part => part.text || '' with the subsequent join('')
coercion of each element to a string. -/
def geminiPartString (p : JVal) : Except String String :=
  match getF p ("text") with
  | .error e => .error e
  | .ok t =>
    .ok (match jsOr t (.str "") with
         | .null => ""
         | .undefined => ""
         | v => jsToString v)

/-- candidates[0].content.parts.map(part => part.text || '').join('');
calling map on a non-array throws. -/
def geminiContent (parts : JVal) : Except String String :=
  match parts with
  | .arr xs =>
    (match xs.mapM geminiPartString with
     | .error e => .error e
     | .ok ss => .ok (String.join ss))
  | _ => .error ("TypeError: parts.map is not a function")

/-- Try-block body of parseGeminiResponse. -/
def parseGeminiCore (response : JVal) : Except String ParsedPayload :=
  if !(jsTruthy response) || !(jsTruthy (getField response ("candidates")))
      || jsStrictEqNum (getField (getField response ("candidates")) ("length")) 0 then
    .error ("Invalid Gemini response format")
  else
    let candidates := getField response ("candidates")
    let firstCandidate := jsIdx0 candidates
    match getF firstCandidate ("content") with
    | .error e => .error e
    | .ok c =>
      match
        (if jsTruthy c && jsTruthy (getField c ("parts")) then
          geminiContent (getField c ("parts"))
        else .ok "") with
      | .error e => .error e
      | .ok content =>
        let usage := jsOr (getField response ("usageMetadata")) (.obj [])
        .ok {
          content := .str content,
          isFunctionCall := false,
          functionCall := .null,
          model := jsOr (getField response ("model")) (.str "gemini"),
          finishReason := jsOr (getField firstCandidate ("finishReason")) (.str "unknown"),
          stats := ⟨jsOrZero (getField usage ("promptTokenCount")),
                    jsOrZero (getField usage ("candidatesTokenCount")),
                    jsAdd (jsOrZero (getField usage ("promptTokenCount")))
                          (jsOrZero (getField usage ("candidatesTokenCount")))⟩ }

/-- parseGeminiResponse with its try/catch. -/
def parseGeminiResponse (now : String) (response : JVal) : ParseResult :=
  wrapParse now ("Failed to parse Gemini response") (parseGeminiCore response)

/-- Try-block body of parseMistralResponse; message is read through
optional chaining. -/
def parseMistralCore (response : JVal) : Except String ParsedPayload :=
  if !(jsTruthy response) || !(jsTruthy (getField response ("choices")))
      || jsStrictEqNum (getField (getField response ("choices")) ("length")) 0 then
    .error ("Invalid Mistral response format")
  else
    let choices := getField response ("choices")
    let firstChoice := jsIdx0 choices
    match getF firstChoice ("message") with
    | .error e => .error e
    | .ok msg =>
      let usage := jsOr (getField response ("usage")) (.obj [])
      .ok {
        content := jsOr (getOpt msg ("content")) (.str ""),
        isFunctionCall := jsTruthy (getOpt msg ("function_call")),
        functionCall := jsOr (getOpt msg ("function_call")) .null,
        model := getField response ("model"),
        finishReason := jsOr (getField firstChoice ("finish_reason")) (.str "unknown"),
        stats := ⟨jsOrZero (getField usage ("prompt_tokens")),
                  jsOrZero (getField usage ("completion_tokens")),
                  jsOrZero (getField usage ("total_tokens"))⟩ }

/-- parseMistralResponse with its try/catch. -/
def parseMistralResponse (now : String) (response : JVal) : ParseResult :=
  wrapParse now ("Failed to parse Mistral response") (parseMistralCore response)

/-- Try-block body of parseLocalModelResponse: accepts exactly the truthy
values of typeof 'object' (objects and arrays; null is excluded by the
truthiness test of the source). -/
def parseLocalModelCore (response : JVal) : Except String ParsedPayload :=
  match response with
  | .obj _ | .arr _ =>
    .ok {
      content :=
        if jsTruthy (getField response ("text")) then getField response ("text")
        else if jsTruthy (getField response ("content")) then getField response ("content")
        else if jsTruthy (getField response ("message")) then getField response ("message")
        else if jsTruthy (getField response ("output")) then getField response ("output")
        else .str "",
      isFunctionCall := false,
      functionCall := .null,
      model := jsOr (getField response ("model")) (.str "local-model"),
      finishReason := jsOr (getField response ("finish_reason")) (.str "unknown"),
      stats := ⟨jsOrZero (getField response ("prompt_tokens")),
                jsOrZero (getField response ("completion_tokens")),
                jsAdd (jsOrZero (getField response ("prompt_tokens")))
                      (jsOrZero (getField response ("completion_tokens")))⟩ }
  | _ => .error ("Invalid local model response format")

/-- parseLocalModelResponse with its try/catch. -/
def parseLocalModelResponse (now : String) (response : JVal) : ParseResult :=
  wrapParse now ("Failed to parse local model response") (parseLocalModelCore response)

/-- ASCII model of String.prototype.toLowerCase (the dispatch tokens are
ASCII). -/
def charLower (c : Char) : Char :=
  if 'A' ≤ c && c ≤ 'Z' then Char.ofNat (c.toNat + 32) else c

def jsLower (s : String) : String := (s.data.map charLower).asString

/-- parseByModelType: case-insensitive dispatch on the provider type; the
switch's default arm logs a warning and falls back to the local/custom
parser. -/
def parseByModelType (now : String) (modelType : String) (response : JVal) : ParseResult :=
  let t := jsLower modelType
  if t = "openai" then parseOpenAIResponse now response
  else if t = "azure-openai" then parseAzureOpenAIResponse now response
  else if t = "claude" || t = "anthropic" then parseClaudeResponse now response
  else if t = "gemini" || t = "google" then parseGeminiResponse now response
  else if t = "mistral" then parseMistralResponse now response
  else if t = "local" then parseLocalModelResponse now response
  else parseLocalModelResponse now response

/-- The error input of standardizeError: an Error instance (message and
stack), a plain object, or a string. -/
inductive ErrValue where
  | jsError : String → String → ErrValue
  | objV : List (String × JVal) → ErrValue
  | strV : String → ErrValue

/-- Own enumerable fields contributed by an object spread; strings spread
to indexed characters, arrays to indexed elements, other primitives to
nothing. -/
def spreadFields : JVal → List (String × JVal)
  | .obj fs => fs
  | .arr xs => xs.enum.map (fun p => (toString p.1, p.2))
  | .str s => s.data.enum.map (fun p => (toString p.1, JVal.str (String.singleton p.2)))
  | _ => []

/-- standardizeError: seeds message/code/statusCode/details from the input
kind, then reclassifies code and statusCode by substring tests on the
message exactly as in the source (case-sensitive String.includes calls),
and wraps everything through createErrorResponse with details
{ code, serviceName, ...details }.  A truthy non-string message would make
message.includes throw, embedded as Except.error. -/
def standardizeError (now : String) (error : ErrValue) (serviceName : String) :
    Except String ErrorEnv :=
  let seeded : JVal × JVal × JVal × JVal :=
    match error with
    | .jsError m stack =>
      (.str m, .str "INTERNAL_ERROR", .num 500, .obj [("stack", .str stack)])
    | .objV fs =>
      (jsOr (getField (.obj fs) ("message")) (.str "Unknown error"),
       jsOr (getField (.obj fs) ("code")) (.str "INTERNAL_ERROR"),
       jsOr (getField (.obj fs) ("statusCode")) (jsOr (getField (.obj fs) ("status")) (.num 500)),
       jsOr (getField (.obj fs) ("details")) (.obj []))
    | .strV s => (.str s, .str "INTERNAL_ERROR", .num 500, .obj [])
  match seeded.1 with
  | .str m =>
    let cs : JVal × JVal :=
      if strIncludes m ("rate limit") || strIncludes m ("quota") then
        (.str "RATE_LIMIT_EXCEEDED", .num 429)
      else if strIncludes m ("not found") || strIncludes m ("404") then
        (.str "NOT_FOUND", .num 404)
      else if strIncludes m ("unauthorized") || strIncludes m ("401") then
        (.str "UNAUTHORIZED", .num 401)
      else if strIncludes m ("forbidden") || strIncludes m ("403") then
        (.str "FORBIDDEN", .num 403)
      else if strIncludes m ("validation") || strIncludes m ("400") then
        (.str "VALIDATION_ERROR", .num 400)
      else (seeded.2.1, seeded.2.2.1)
    .ok (createErrorResponse now m cs.2
      (.obj ([("code", cs.1), ("serviceName", .str serviceName)] ++ spreadFields seeded.2.2.2)))
  | _ => .error ("TypeError: message.includes is not a function")

/-- The claim-side classification function: first matching keyword set
wins, in the order rate limit/quota, not found/404, unauthorized/401,
forbidden/403, validation/400; otherwise the seeded code and status. -/
def classifyError (m : String) (code0 status0 : JVal) : JVal × JVal :=
  if strIncludes m ("rate limit") || strIncludes m ("quota") then
    (.str "RATE_LIMIT_EXCEEDED", .num 429)
  else if strIncludes m ("not found") || strIncludes m ("404") then
    (.str "NOT_FOUND", .num 404)
  else if strIncludes m ("unauthorized") || strIncludes m ("401") then
    (.str "UNAUTHORIZED", .num 401)
  else if strIncludes m ("forbidden") || strIncludes m ("403") then
    (.str "FORBIDDEN", .num 403)
  else if strIncludes m ("validation") || strIncludes m ("400") then
    (.str "VALIDATION_ERROR", .num 400)
  else (code0, status0)

/-- Seed code of standardizeError before classification. -/
def seedCode : ErrValue → JVal
  | .objV fs => jsOr (getField (.obj fs) ("code")) (.str "INTERNAL_ERROR")
  | _ => .str "INTERNAL_ERROR"

/-- Seed statusCode of standardizeError before classification. -/
def seedStatus : ErrValue → JVal
  | .objV fs =>
    jsOr (getField (.obj fs) ("statusCode")) (jsOr (getField (.obj fs) ("status")) (.num 500))
  | _ => .num 500

/-- Seed details of standardizeError. -/
def seedDetails : ErrValue → JVal
  | .jsError _ stack => .obj [("stack", .str stack)]
  | .objV fs => jsOr (getField (.obj fs) ("details")) (.obj [])
  | .strV _ => .obj []

/-- Usage argument of calculateCost. -/
structure CostUsage where
  promptTokens : Option Rat
  completionTokens : Option Rat

/-- Result of calculateCost. -/
structure CostEstimate where
  model : String
  promptCost : Rat
  completionCost : Rat
  totalCost : Rat
  currency : String

/-- The static price table, in the source's declared key order; each entry
is price per 1000 tokens as (prompt, completion). -/
def priceTable : List (String × Rat × Rat) :=
  [("gpt-4", 0.03, 0.06),
   ("gpt-4-vision-preview", 0.01, 0.03),
   ("gpt-3.5-turbo", 0.0015, 0.002),
   ("claude-3-opus-20240229", 0.015, 0.075),
   ("claude-3-sonnet-20240229", 0.003, 0.015),
   ("claude-3-haiku-20240307", 0.00025, 0.00125),
   ("gemini-pro", 0.000125, 0.000375),
   ("mistral-large-latest", 0.008, 0.024),
   ("mistral-medium-latest", 0.002, 0.006),
   ("mistral-small-latest", 0.0002, 0.0006)]

/-- Key resolution of calculateCost: exact key, else the first declared key
that is a substring of the model name, else gpt-3.5-turbo. -/
def resolveModelKey (model : String) : String :=
  if (priceTable.find? (fun kv => kv.1 == model)).isSome then model
  else
    ((priceTable.find? (fun kv => strIncludes model kv.1)).map (fun kv => kv.1)).getD
      ("gpt-3.5-turbo")

/-- Price entry of a resolved key, with the source's redundant second
fallback to the gpt-3.5-turbo entry. -/
def priceFor (key : String) : Rat × Rat :=
  ((priceTable.find? (fun kv => kv.1 == key)).map (fun kv => kv.2)).getD
    (((priceTable.find? (fun kv => kv.1 == "gpt-3.5-turbo")).map (fun kv => kv.2)).getD (0, 0))

/-- Number(x.toFixed(6)), modelled as exact decimal rounding half-up to six
places (no stated property depends on the tie-breaking rule). -/
def round6 (q : Rat) : Rat :=
  ((Rat.floor (q * 1000000 + 1 / 2) : Int) : Rat) / 1000000

/-- calculateCost: per-1000-token pricing on the resolved key, each cost
rounded to six decimal places, currency USD, the resolved key echoed as
model. -/
def calculateCost (usage : CostUsage) (model : String) : CostEstimate :=
  let modelKey := resolveModelKey model
  let price := priceFor modelKey
  let promptCost := (usage.promptTokens.getD 0) * price.1 / 1000
  let completionCost := (usage.completionTokens.getD 0) * price.2 / 1000
  let totalCost := promptCost + completionCost
  ⟨modelKey, round6 promptCost, round6 completionCost, round6 totalCost, "USD"⟩

/-- Whether a value is a plain object. -/
def isObjB : JVal → Bool
  | .obj _ => true
  | _ => false

/-- Stats of a successful parse result. -/
def resultStats : ParseResult → Option ParsedStats
  | .success d _ _ => some d.stats
  | .failure _ => none

/-! ## Helper lemmas -/

/-- A property read on a truthy base never throws. -/
theorem getF_of_truthy {v : JVal} (h : jsTruthy v = true) (k : String) :
    getF v k = .ok (getField v k) := by
  cases v <;> first | rfl | simp [jsTruthy] at h

/-- Unfolding equation relating the embedded step 4 of
extractJsonFromResponse (with its escape of exceptions) to the
specification transcription. -/
theorem step4_unfold (t : String) :
    (match extractJsonStep4 t with
     | .ok o => o
     | .error _ => none) = extractJsonSpecStep4 t := by
  unfold extractJsonStep4 extractJsonSpecStep4
  cases braceMatch t.data with
  | none => rfl
  | some sub =>
    dsimp only
    cases jsonParse sub <;> rfl

/-- Unfolding equation for step 3 (generic fence). -/
theorem step3_unfold (t : String) :
    (match extractJsonStep3 t with
     | .ok o => o
     | .error _ => none) = extractJsonSpecStep3 t := by
  unfold extractJsonStep3 extractJsonSpecStep3
  cases genericFenceMatch t with
  | none => exact step4_unfold t
  | some i =>
    dsimp only
    by_cases hi : i = ""
    · rw [if_pos hi, if_pos hi]
      exact step4_unfold t
    · rw [if_neg hi, if_neg hi]
      cases jsonParse i with
      | some v => rfl
      | none => exact step4_unfold t

/-! ## Claims -/

/-- C5: for every string text, extractJsonFromResponse follows exactly the
ordered fallback chain of the specification: (1) whole-string JSON parse
first, regardless of any fences in the text; (2) else the first json-tagged
fenced block with a non-empty interior, whose parse outcome is returned;
(3) else the first generic fenced block with a non-empty interior, a parse
failure there being swallowed so processing continues; (4) else the first
non-nested brace group is parsed; (5) else null.  Stated as extensional
equality with the specification transcription extractJsonSpec. -/
theorem claim_C5 : ∀ text, extractJsonFromResponse text = extractJsonSpec text := by
  intro text
  unfold extractJsonFromResponse extractJsonCore extractJsonSpec
  cases jsonParse text with
  | some v => rfl
  | none =>
    dsimp only
    cases jsonFenceMatch text with
    | none => exact step3_unfold text
    | some i =>
      dsimp only
      by_cases hi : i = ""
      · rw [if_pos hi, if_pos hi]
        exact step3_unfold text
      · rw [if_neg hi, if_neg hi]
        cases jsonParse i with
        | some v => rfl
        | none => rfl

/-- C10: asymmetric fence-failure handling.  When the whole text does not
parse but a json-tagged fence with non-empty interior exists and its
interior does not parse either, extractJsonFromResponse is null no matter
what the later steps would have produced (the tagged-fence parse failure is
an uncaught throw); whereas with no tagged fence, a generic fence whose
non-empty interior fails to parse lets processing continue into the brace
scan. -/
theorem claim_C10 :
    (∀ text i, jsonParse text = none → jsonFenceMatch text = some i → ¬ i = "" →
      jsonParse i = none → extractJsonFromResponse text = none) ∧
    (∀ text i, jsonParse text = none → jsonFenceMatch text = none →
      genericFenceMatch text = some i → ¬ i = "" → jsonParse i = none →
      extractJsonFromResponse text =
        (match braceMatch text.data with
         | some sub => jsonParse sub
         | none => none)) := by
  constructor
  · intro text i h1 h2 h3 h4
    unfold extractJsonFromResponse extractJsonCore
    rw [h1]
    dsimp only
    rw [h2]
    dsimp only
    rw [if_neg h3, h4]
  · intro text i h1 h2 h3 h4 h5
    unfold extractJsonFromResponse extractJsonCore extractJsonStep3
    rw [h1]
    dsimp only
    rw [h2]
    dsimp only
    rw [h3]
    dsimp only
    rw [if_neg h4, h5]
    exact step4_unfold text

/-- Concrete text whose json-tagged fence interior is invalid JSON while a
later brace group is valid. -/
def c10TextA : String := "```json \x7bbad\x7d ``` \x7b\"a\":1\x7d"

/-- Concrete text with no json-tagged fence, an invalid generic fence
interior, and a later valid brace group. -/
def c10TextB : String := "``` nope ``` rest \x7b\"a\":1\x7d"

/-- Witness for C10 at concrete inputs: the tagged-fence failure yields
null even though a parsable brace group follows, while the generic-fence
failure falls through to the brace scan and succeeds. -/
theorem claim_C10_witness :
    extractJsonFromResponse c10TextA = none ∧
    extractJsonFromResponse c10TextB = some (.obj [("a", .num 1)]) := by
  constructor
  · exact claim_C10.1 c10TextA ("\x7bbad\x7d") (by with_unfolding_all rfl)
      (by with_unfolding_all rfl) (by decide) (by with_unfolding_all rfl)
  · have h := claim_C10.2 c10TextB ("nope") (by with_unfolding_all rfl)
      (by with_unfolding_all rfl) (by with_unfolding_all rfl) (by decide)
      (by with_unfolding_all rfl)
    rw [h]
    with_unfolding_all rfl

/-- Any provider wrapper (a core matched against success/catch) yields
either a success envelope or a 500 failure envelope stamped with now. -/
theorem wrapShape (now msg : String) (core : Except String ParsedPayload) :
    (∃ d m, wrapParse now msg core = .success d m now) ∨
    (∃ m det, wrapParse now msg core = .failure ⟨m, .num 500, det, now⟩) := by
  cases core with
  | ok p => exact Or.inl ⟨p, "Operation successful", rfl⟩
  | error e => exact Or.inr ⟨msg, .obj [("originalError", .str e)], rfl⟩

/-- C2: totality of the public boundary.  parseByModelType always returns a
success envelope or a canonical 500 error envelope (never an uncaught
exception), for every provider-type string and every value including null;
the try-block body of extractToolCall never reaches an exceptional state,
so extractToolCall totalizes to an Option; any throw escaping the fallback
chain inside extractJsonFromResponse is converted to null by its outer
catch; and processFunctionCall is the one core operation that can throw. -/
theorem claim_C2 :
    (∀ now modelType response,
      (∃ d m, parseByModelType now modelType response = .success d m now) ∨
      (∃ m det, parseByModelType now modelType response = .failure ⟨m, .num 500, det, now⟩)) ∧
    (∀ content, ∃ o, extractToolCallCore content = .ok o ∧ extractToolCall content = o) ∧
    (∀ content e, extractJsonCore content = .error e → extractJsonFromResponse content = none) ∧
    (∃ e, processFunctionCall ("T") .null = .error e) := by
  refine ⟨?_, ?_, ?_, ?_⟩
  · intro now modelType response
    unfold parseByModelType
    dsimp only
    repeat' split
    all_goals
      first
        | exact wrapShape now ("Failed to parse OpenAI response") (parseOpenAICore response)
        | exact wrapShape now ("Failed to parse Claude response") (parseClaudeCore response)
        | exact wrapShape now ("Failed to parse Gemini response") (parseGeminiCore response)
        | exact wrapShape now ("Failed to parse Mistral response") (parseMistralCore response)
        | exact wrapShape now ("Failed to parse local model response") (parseLocalModelCore response)
  · intro content
    have hcore : ∃ o, extractToolCallCore content = .ok o := by
      unfold extractToolCallCore
      cases hj : extractJsonFromResponse content with
      | none => exact ⟨regexToolFallback content, rfl⟩
      | some j =>
        dsimp only
        cases ht : jsTruthy j with
        | false => simp [jsTruthyOpt, ht]
        | true =>
          simp only [jsTruthyOpt, ht, if_true, Option.getD_some]
          rw [getF_of_truthy ht, getF_of_truthy ht]
          dsimp only
          by_cases h1 : jsTruthy (jsOr (getField j ("tool_call")) (getField j ("function_call"))) = true
          · simp [h1]
          · simp only [h1, if_false, Bool.not_eq_true] at h1 ⊢
            rw [getF_of_truthy ht, getF_of_truthy ht, getF_of_truthy ht]
            dsimp only
            by_cases h2 : (jsTruthy (getField j ("name"))
                && jsTruthy (jsOr (getField j ("parameters")) (getField j ("arguments")))) = true
            · simp [h1, h2]
            · simp only [Bool.not_eq_true] at h2
              simp [h1, h2]
    obtain ⟨o, ho⟩ := hcore
    refine ⟨o, ho, ?_⟩
    unfold extractToolCall
    rw [ho]
  · intro content e h
    unfold extractJsonFromResponse
    rw [h]
  · exact ⟨"Invalid function call format", rfl⟩

/-- Concrete text on which the fallback chain of extractJsonFromResponse
throws internally (a brace group that is not valid JSON). -/
def c2BadText : String := "x \x7bbad\x7d"

/-- Witness for C2 at concrete inputs: a null raw response still produces
an envelope, extractToolCall totalizes on a concrete text, the thrown
brace-scan failure surfaces as null, and processFunctionCall throws on a
null argument. -/
theorem claim_C2_witness :
    ((∃ d m, parseByModelType ("T") ("openai") .null = .success d m ("T")) ∨
      (∃ m det, parseByModelType ("T") ("openai") .null = .failure ⟨m, .num 500, det, ("T")⟩)) ∧
    (∃ o, extractToolCallCore ("hello") = .ok o ∧ extractToolCall ("hello") = o) ∧
    extractJsonFromResponse c2BadText = none ∧
    (∃ e, processFunctionCall ("T") .null = .error e) := by
  refine ⟨claim_C2.1 ("T") ("openai") .null, claim_C2.2.1 ("hello"),
    claim_C2.2.2.1 c2BadText ("SyntaxError: unexpected token") (by with_unfolding_all rfl),
    claim_C2.2.2.2⟩

/-- C9: an unknown provider type is not an error: for every type string
whose lower-casing is none of the recognized tokens, parseByModelType
returns exactly what the local/custom parser returns on the same raw
response (timestamps coincide because the same now is stamped), and the
dispatch depends on the provider type only through its lower-casing. -/
theorem claim_C9 :
    (∀ now modelType response,
      ¬ jsLower modelType ∈ (["openai", "azure-openai", "claude", "anthropic",
        "gemini", "google", "mistral", "local"] : List String) →
      parseByModelType now modelType response = parseLocalModelResponse now response) ∧
    (∀ now t1 t2 response, jsLower t1 = jsLower t2 →
      parseByModelType now t1 response = parseByModelType now t2 response) := by
  constructor
  · intro now modelType response h
    simp only [List.mem_cons, List.mem_singleton, not_or] at h
    obtain ⟨h1, h2, h3, h4, h5, h6, h7, h8, -⟩ := h
    unfold parseByModelType
    dsimp only
    rw [if_neg h1, if_neg h2]
    rw [if_neg (by simp [h3, h4]), if_neg (by simp [h5, h6])]
    rw [if_neg h7, if_neg h8]
  · intro now t1 t2 response h
    unfold parseByModelType
    rw [h]

/-- Minimal fixture for the local/custom parser. -/
def localSample : JVal :=
  .obj [("text", .str "y"), ("prompt_tokens", .num 2), ("completion_tokens", .num 5)]

/-- Witness for C9: a concrete unknown provider type routes to the local
parser, and dispatch is insensitive to letter case. -/
theorem claim_C9_witness :
    parseByModelType ("T") ("custom-llm") localSample = parseLocalModelResponse ("T") localSample ∧
    parseByModelType ("T") ("OpenAI") .null = parseByModelType ("T") ("openai") .null := by
  constructor
  · exact claim_C9.1 ("T") ("custom-llm") localSample (by decide)
  · exact claim_C9.2 ("T") ("OpenAI") ("openai") .null (by with_unfolding_all rfl)

/-- Inversion of the shared try/catch pattern on a success envelope. -/
theorem wrapParse_success {now msg : String} {core : Except String ParsedPayload}
    {d : ParsedPayload} {m ts : String}
    (h : wrapParse now msg core = .success d m ts) : core = .ok d := by
  unfold wrapParse at h
  cases core with
  | ok p =>
    unfold createSuccessResponse at h
    injection h with h1 h2 h3
    rw [h1]
  | error e => simp [parserCatch, createErrorResponse] at h

/-- Minimal fixture for the Claude parser. -/
def claudeSample : JVal :=
  .obj [("completion", .str "hi"),
        ("usage", .obj [("input_tokens", .num 3), ("output_tokens", .num 4)])]

/-- Minimal fixture for the Gemini parser. -/
def geminiSample : JVal :=
  .obj [("candidates", .arr [.obj [
          ("content", .obj [("parts", .arr [.obj [("text", .str "a")], .obj [("text", .str "b")]])]),
          ("finishReason", .str "stop")]]),
        ("usageMetadata", .obj [("promptTokenCount", .num 1), ("candidatesTokenCount", .num 2)])]

/-- OpenAI fixture whose provider-reported total deliberately disagrees
with the sum of the parts. -/
def openaiSample : JVal :=
  .obj [("choices", .arr [.obj [("message", .obj [("content", .str "ok")])]]),
        ("usage", .obj [("prompt_tokens", .num 1), ("completion_tokens", .num 2),
                        ("total_tokens", .num 99)]),
        ("model", .str "gpt-4")]

/-- Mistral fixture whose provider-reported total disagrees with the sum of
the parts. -/
def mistralSample : JVal :=
  .obj [("choices", .arr [.obj [("message", .obj [("content", .str "m")])]]),
        ("usage", .obj [("prompt_tokens", .num 1), ("completion_tokens", .num 2),
                        ("total_tokens", .num 50)])]

/-- C1: per-provider totalTokens rule.  Every success payload of the
Claude, Gemini and local parsers carries totalTokens recomputed as the
JavaScript sum of its promptTokens and completionTokens (each defaulted to
0 by the parser), while every success payload of the OpenAI and Mistral
parsers carries the provider's own usage.total_tokens (defaulted to 0)
without recomputation, as exhibited by a fixture whose reported total
differs from the sum of its parts. -/
theorem claim_C1 :
    (∀ now r d m ts, parseClaudeResponse now r = .success d m ts →
      d.stats.totalTokens = jsAdd d.stats.promptTokens d.stats.completionTokens) ∧
    (∀ now r d m ts, parseGeminiResponse now r = .success d m ts →
      d.stats.totalTokens = jsAdd d.stats.promptTokens d.stats.completionTokens) ∧
    (∀ now r d m ts, parseLocalModelResponse now r = .success d m ts →
      d.stats.totalTokens = jsAdd d.stats.promptTokens d.stats.completionTokens) ∧
    (∀ now r d m ts, parseOpenAIResponse now r = .success d m ts →
      d.stats.totalTokens = jsOrZero (getField (jsOr (getField r ("usage")) (.obj [])) ("total_tokens"))) ∧
    (∀ now r d m ts, parseMistralResponse now r = .success d m ts →
      d.stats.totalTokens = jsOrZero (getField (jsOr (getField r ("usage")) (.obj [])) ("total_tokens"))) ∧
    (∃ s, resultStats (parseOpenAIResponse ("T") openaiSample) = some s ∧
      ¬ s.totalTokens = jsAdd s.promptTokens s.completionTokens) := by
  refine ⟨?_, ?_, ?_, ?_, ?_, ?_⟩
  · intro now r d m ts h
    have hc := wrapParse_success h
    unfold parseClaudeCore at hc
    split at hc
    · exact absurd hc (by simp)
    · injection hc with hp
      subst hp
      rfl
  · intro now r d m ts h
    have hc := wrapParse_success h
    unfold parseGeminiCore at hc
    dsimp only at hc
    split at hc
    · exact absurd hc (by simp)
    · split at hc
      · exact absurd hc (by simp)
      · split at hc
        · exact absurd hc (by simp)
        · injection hc with hp
          subst hp
          rfl
  · intro now r d m ts h
    have hc := wrapParse_success h
    unfold parseLocalModelCore at hc
    split at hc
    all_goals
      first
        | (injection hc with hp; subst hp; rfl)
        | exact absurd hc (by simp)
  · intro now r d m ts h
    have hc := wrapParse_success h
    unfold parseOpenAICore at hc
    dsimp only at hc
    split at hc
    · exact absurd hc (by simp)
    · split at hc
      · exact absurd hc (by simp)
      · injection hc with hp
        subst hp
        rfl
  · intro now r d m ts h
    have hc := wrapParse_success h
    unfold parseMistralCore at hc
    dsimp only at hc
    split at hc
    · exact absurd hc (by simp)
    · split at hc
      · exact absurd hc (by simp)
      · injection hc with hp
        subst hp
        rfl
  · refine ⟨⟨.num 1, .num 2, .num 99⟩, by with_unfolding_all rfl, ?_⟩
    intro heq
    have h3 : jsAdd (JVal.num 1) (JVal.num 2) = JVal.num 3 := by with_unfolding_all rfl
    rw [h3] at heq
    injection heq with h99
    norm_num at h99

/-- Payload produced by the Claude parser on claudeSample. -/
def claudeExpected : ParsedPayload :=
  ⟨.str "hi", false, .null, .str "claude", .str "unknown", ⟨.num 3, .num 4, .num 7⟩⟩

/-- Payload produced by the Gemini parser on geminiSample. -/
def geminiExpected : ParsedPayload :=
  ⟨.str "ab", false, .null, .str "gemini", .str "stop", ⟨.num 1, .num 2, .num 3⟩⟩

/-- Payload produced by the local parser on localSample. -/
def localExpected : ParsedPayload :=
  ⟨.str "y", false, .null, .str "local-model", .str "unknown", ⟨.num 2, .num 5, .num 7⟩⟩

/-- Payload produced by the OpenAI parser on openaiSample. -/
def openaiExpected : ParsedPayload :=
  ⟨.str "ok", false, .null, .str "gpt-4", .str "unknown", ⟨.num 1, .num 2, .num 99⟩⟩

/-- Payload produced by the Mistral parser on mistralSample. -/
def mistralExpected : ParsedPayload :=
  ⟨.str "m", false, .null, .undefined, .str "unknown", ⟨.num 1, .num 2, .num 50⟩⟩

/-- Witness for C1 at one concrete fixture per provider. -/
theorem claim_C1_witness :
    claudeExpected.stats.totalTokens
      = jsAdd claudeExpected.stats.promptTokens claudeExpected.stats.completionTokens ∧
    geminiExpected.stats.totalTokens
      = jsAdd geminiExpected.stats.promptTokens geminiExpected.stats.completionTokens ∧
    localExpected.stats.totalTokens
      = jsAdd localExpected.stats.promptTokens localExpected.stats.completionTokens ∧
    openaiExpected.stats.totalTokens
      = jsOrZero (getField (jsOr (getField openaiSample ("usage")) (.obj [])) ("total_tokens")) ∧
    mistralExpected.stats.totalTokens
      = jsOrZero (getField (jsOr (getField mistralSample ("usage")) (.obj [])) ("total_tokens")) := by
  refine ⟨claim_C1.1 ("T") claudeSample claudeExpected ("Operation successful") ("T")
      (by with_unfolding_all rfl),
    claim_C1.2.1 ("T") geminiSample geminiExpected ("Operation successful") ("T")
      (by with_unfolding_all rfl),
    claim_C1.2.2.1 ("T") localSample localExpected ("Operation successful") ("T")
      (by with_unfolding_all rfl),
    claim_C1.2.2.2.1 ("T") openaiSample openaiExpected ("Operation successful") ("T")
      (by with_unfolding_all rfl),
    claim_C1.2.2.2.2.1 ("T") mistralSample mistralExpected ("Operation successful") ("T")
      (by with_unfolding_all rfl)⟩

/-- Control-flow characterization of extractToolCall: the value of the
JSON-extraction steps when they produce one, else the regex fallback. -/
theorem extractToolCall_structure (content : String) :
    extractToolCall content =
      (match toolCallJsonPath content with
       | some v => some v
       | none => regexToolFallback content) := by
  unfold extractToolCall extractToolCallCore toolCallJsonPath
  cases hj : extractJsonFromResponse content with
  | none => rfl
  | some j =>
    dsimp only
    cases ht : jsTruthy j with
    | false => simp [jsTruthyOpt, ht]
    | true =>
      simp only [jsTruthyOpt, ht, if_true, Option.getD_some]
      rw [getF_of_truthy ht, getF_of_truthy ht]
      dsimp only
      by_cases h1 : jsTruthy (jsOr (getField j ("tool_call")) (getField j ("function_call"))) = true
      · simp [h1]
      · rw [Bool.not_eq_true] at h1
        simp only [h1, Bool.false_eq_true, if_false]
        rw [getF_of_truthy ht, getF_of_truthy ht, getF_of_truthy ht]
        dsimp only
        by_cases h2 : (jsTruthy (getField j ("name"))
            && jsTruthy (jsOr (getField j ("parameters")) (getField j ("arguments")))) = true
        · simp [h2]
        · rw [Bool.not_eq_true] at h2
          simp [h2]

/-- A successful parse of input starting with an opening brace yields an
object value. -/
theorem parseV_braceObj {f : Nat} {r rest : List Char} {v : JVal}
    (h : parseV (f + 1) ('{' :: r) = some (v, rest)) : ∃ fs, v = .obj fs := by
  have hskip : skipWs ('{' :: r) = '{' :: r := by
    simp [skipWs, List.dropWhile, isJsonWs]
  unfold parseV at h
  rw [hskip] at h
  try dsimp only at h
  rw [if_pos rfl] at h
  split at h
  · simp only [Option.some.injEq, Prod.mk.injEq] at h
    exact ⟨[], h.1.symm⟩
  · rw [Option.map_eq_some'] at h
    obtain ⟨p, hp, hg⟩ := h
    simp only [Prod.mk.injEq] at hg
    exact ⟨p.1, hg.1.symm⟩

/-- jsonParse on a string whose first character is an opening brace yields
an object when it succeeds. -/
theorem jsonParse_braceStr {body : List Char} {v : JVal}
    (h : jsonParse (('{' :: body).asString) = some v) : ∃ fs, v = .obj fs := by
  unfold jsonParse at h
  have hl : (('{' :: body).asString).length + 8 = (body.length + 8) + 1 := by
    simp [List.asString, String.length]
  have hd : (('{' :: body).asString).data = '{' :: body := rfl
  rw [hl, hd] at h
  cases hp : parseV ((body.length + 8) + 1) ('{' :: body) with
  | none => rw [hp] at h; simp at h
  | some pr =>
    obtain ⟨w, rest⟩ := pr
    rw [hp] at h
    dsimp only at h
    obtain ⟨fs, hfs⟩ := parseV_braceObj hp
    split at h
    · simp only [Option.some.injEq] at h
      exact ⟨fs, h ▸ hfs⟩
    · simp at h

/-- The single-quote character as a string, for building concrete inputs. -/
def sqc : String := String.singleton quoteChar

/-- Concrete text for which the JSON step-2 path of extractToolCall
returns a string-valued arguments field verbatim. -/
def c3Text : String := "\x7b\"name\":\"f\",\"arguments\":\"nope\"\x7d"

/-- Counterexample to C3 as stated: on c3Text (a JSON object whose
arguments are the JSON string "nope"), extractToolCall returns a non-null
result whose arguments field is the unparsed string, not a parsed object
(the claim demands a parsed object with an empty-object substitution on
parse failure). -/
theorem claim_C3_counterexample :
    extractToolCall c3Text = some (.obj [("name", .str "f"), ("arguments", .str "nope")]) ∧
    isObjB (getField (.obj [("name", .str "f"), ("arguments", .str "nope")]) ("arguments"))
      = false := by
  constructor
  · with_unfolding_all rfl
  · rfl

/-- C3 amended: only the regex path of extractToolCall guarantees parsed
object arguments (the brace group of the call_tool pattern is JSON-parsed,
and any successful parse of it is an object); the JSON-extraction paths
return the source value of parameters/arguments verbatim, which may be an
unparsed string — the parse-string-and-substitute-empty-object behavior
belongs to processFunctionCall, not to extractToolCall. -/
theorem claim_C3 :
    (∀ text n a v, toolCallJsonPath text = none → callToolMatch text = some (n, a) →
      jsonParse a = some v →
      extractToolCall text = some (.obj [("name", .str n), ("arguments", v)]) ∧
      isObjB v = true) ∧
    (∀ text j, extractJsonFromResponse text = some j → jsTruthy j = true →
      jsTruthy (jsOr (getField j ("tool_call")) (getField j ("function_call"))) = false →
      (jsTruthy (getField j ("name"))
        && jsTruthy (jsOr (getField j ("parameters")) (getField j ("arguments")))) = true →
      extractToolCall text = some (.obj [("name", getField j ("name")),
        ("arguments", jsOr (getField j ("parameters")) (getField j ("arguments")))])) := by
  constructor
  · intro text n a v hpath hmatch hparse
    constructor
    · rw [extractToolCall_structure, hpath]
      unfold regexToolFallback
      rw [hmatch]
      dsimp only
      rw [hparse]
    · unfold callToolMatch at hmatch
      rw [Option.map_eq_some'] at hmatch
      obtain ⟨p, hp, hg⟩ := hmatch
      simp only [Prod.mk.injEq] at hg
      rw [← hg.2, List.cons_append] at hparse
      obtain ⟨fs, hfs⟩ := jsonParse_braceStr hparse
      rw [hfs]
      rfl
  · intro text j hjson htr hno hyes
    rw [extractToolCall_structure]
    unfold toolCallJsonPath
    rw [hjson]
    dsimp only
    simp only [htr, if_true, hno, Bool.false_eq_true, if_false, hyes]

/-- Concrete text taking the regex path with a double-quoted name. -/
def c3RegexText : String := "call_tool(\"go\", \x7b\"a\":2\x7d)"

/-- Concrete text whose step-2 result passes a string through verbatim. -/
def c3PassText : String := "\x7b\"name\":\"g\",\"arguments\":\"zzz\"\x7d"

/-- Witness for C3 at concrete inputs: the regex path yields a parsed
object, the JSON path passes the source string through. -/
theorem claim_C3_witness :
    (extractToolCall c3RegexText
        = some (.obj [("name", .str "go"), ("arguments", .obj [("a", .num 2)])]) ∧
      isObjB (.obj [("a", .num 2)]) = true) ∧
    extractToolCall c3PassText
      = some (.obj [("name", .str "g"), ("arguments", .str "zzz")]) := by
  constructor
  · exact claim_C3.1 c3RegexText ("go") ("\x7b\"a\":2\x7d") (.obj [("a", .num 2)])
      (by with_unfolding_all rfl) (by with_unfolding_all rfl) (by with_unfolding_all rfl)
  · have h := claim_C3.2 c3PassText (.obj [("name", .str "g"), ("arguments", .str "zzz")])
      (by with_unfolding_all rfl) (by with_unfolding_all rfl)
      (by with_unfolding_all rfl) (by with_unfolding_all rfl)
    rw [h]
    with_unfolding_all rfl

/-- C8: in the regex path of extractToolCall (reached only when the JSON
steps resolved nothing), a call_tool match with a JSON-parsable brace group
yields the name with the parsed arguments, while a parse failure of the
brace group makes the whole function return null rather than a partial
result; in particular the input with literal "call_tool, quoted search,
invalid braces" returns null. -/
theorem claim_C8 :
    (∀ text n a, toolCallJsonPath text = none → callToolMatch text = some (n, a) →
      (∀ v, jsonParse a = some v →
        extractToolCall text = some (.obj [("name", .str n), ("arguments", v)])) ∧
      (jsonParse a = none → extractToolCall text = none)) ∧
    extractToolCall ("call_tool(" ++ sqc ++ "search" ++ sqc ++ ", \x7binvalid\x7d)") = none := by
  constructor
  · intro text n a hpath hmatch
    constructor
    · intro v hv
      rw [extractToolCall_structure, hpath]
      unfold regexToolFallback
      rw [hmatch]
      dsimp only
      rw [hv]
    · intro hnone
      rw [extractToolCall_structure, hpath]
      unfold regexToolFallback
      rw [hmatch]
      dsimp only
      rw [hnone]
  · with_unfolding_all rfl

/-- Concrete text for the successful regex path (single-quoted name). -/
def c8Text : String := "call_tool(" ++ sqc ++ "add" ++ sqc ++ ", \x7b\"x\":1\x7d)"

/-- Witness for C8 at a concrete input whose brace group parses. -/
theorem claim_C8_witness :
    extractToolCall c8Text
      = some (.obj [("name", .str "add"), ("arguments", .obj [("x", .num 1)])]) := by
  exact (claim_C8.1 c8Text ("add") ("\x7b\"x\":1\x7d") (by with_unfolding_all rfl)
    (by with_unfolding_all rfl)).1 (.obj [("x", .num 1)]) (by with_unfolding_all rfl)

/-- Counterexample to C4 as stated: the input string "Rate limit exceeded"
has a lower-casing that contains the rate-limit keyword, yet
standardizeError classifies it as INTERNAL_ERROR with status 500 because
the source matches keywords case-sensitively on the raw message. -/
theorem claim_C4_counterexample :
    standardizeError ("T") (.strV ("Rate limit exceeded")) ("Svc")
      = .ok ⟨"Rate limit exceeded", .num 500,
          .obj [("code", .str "INTERNAL_ERROR"), ("serviceName", .str "Svc")], "T"⟩ ∧
    strIncludes (jsLower ("Rate limit exceeded")) ("rate limit") = true := by
  constructor
  · with_unfolding_all rfl
  · with_unfolding_all rfl

/-- C4 amended: standardizeError classifies by case-sensitive substring
match on the message exactly as given (not lower-cased), in the priority
order rate limit/quota then not found/404 then unauthorized/401 then
forbidden/403 then validation/400 with the first match winning; when no
keyword matches, code and statusCode fall back to the values seeded from
the input (an object's own code and statusCode/status when truthy, else
INTERNAL_ERROR and 500); the envelope's details carry the classified code,
the service name and the spread of the seeded details. -/
theorem claim_C4 :
    ∀ now e serviceName env, standardizeError now e serviceName = .ok env →
      env.statusCode = (classifyError env.message (seedCode e) (seedStatus e)).2 ∧
      env.details = .obj ([("code", (classifyError env.message (seedCode e) (seedStatus e)).1),
        ("serviceName", .str serviceName)] ++ spreadFields (seedDetails e)) ∧
      env.timestamp = now := by
  intro now e serviceName env h
  cases e with
  | jsError m stack =>
    unfold standardizeError at h
    dsimp only at h
    simp only [Except.ok.injEq] at h
    subst h
    exact ⟨rfl, rfl, rfl⟩
  | strV s =>
    unfold standardizeError at h
    dsimp only at h
    simp only [Except.ok.injEq] at h
    subst h
    exact ⟨rfl, rfl, rfl⟩
  | objV fs =>
    unfold standardizeError at h
    dsimp only at h
    cases hmv : jsOr (getField (.obj fs) ("message")) (.str "Unknown error") with
    | str m =>
      rw [hmv] at h
      dsimp only at h
      simp only [Except.ok.injEq] at h
      subst h
      exact ⟨rfl, rfl, rfl⟩
    | null => rw [hmv] at h; simp at h
    | undefined => rw [hmv] at h; simp at h
    | nan => rw [hmv] at h; simp at h
    | bool b => rw [hmv] at h; simp at h
    | num q => rw [hmv] at h; simp at h
    | arr xs => rw [hmv] at h; simp at h
    | obj gs => rw [hmv] at h; simp at h

/-- Concrete error input for the C4 witness. -/
def c4Err : ErrValue := .strV ("rate limit hit")

/-- Envelope produced by standardizeError on c4Err. -/
def c4Env : ErrorEnv :=
  ⟨"rate limit hit", .num 429,
   .obj [("code", .str "RATE_LIMIT_EXCEEDED"), ("serviceName", .str "S")], "T"⟩

/-- Witness for C4 at a concrete lower-case rate-limit message. -/
theorem claim_C4_witness :
    c4Env.statusCode = (classifyError c4Env.message (seedCode c4Err) (seedStatus c4Err)).2 ∧
    c4Env.details = .obj ([("code", (classifyError c4Env.message (seedCode c4Err)
        (seedStatus c4Err)).1),
      ("serviceName", .str "S")] ++ spreadFields (seedDetails c4Err)) ∧
    c4Env.timestamp = "T" := by
  exact claim_C4 ("T") c4Err ("S") c4Env (by with_unfolding_all rfl)

/-- C7: processFunctionCall throws its "Invalid function call format" error
exactly when the call value or its name field is missing or falsy;
otherwise the result carries the name as toolName, the arguments value as
parameters (empty object when absent, JSON-parsed when a string with an
empty object substituted on parse failure, passed through otherwise) and a
fresh server-side timestamp equal to the now parameter, hence independent
of the input; illustrated on the specification's concrete inputs. -/
theorem claim_C7 :
    (∀ now fc, processFunctionCall now fc = .error ("Invalid function call format") ↔
      ¬ (jsTruthy fc = true ∧ jsTruthy (getField fc ("name")) = true)) ∧
    (∀ now fc r, processFunctionCall now fc = .ok r →
      r.toolName = getField fc ("name") ∧
      r.parameters = (match jsOr (getField fc ("arguments")) (.obj []) with
        | .str s =>
          (match jsonParse s with
           | some v => v
           | none => JVal.obj [])
        | a => a) ∧
      r.timestamp = now) ∧
    processFunctionCall ("T") (.obj [("name", .str "f"), ("arguments", .str "\x7b\"x\":1\x7d")])
      = .ok ⟨.str "f", .obj [("x", .num 1)], "T"⟩ ∧
    processFunctionCall ("T") (.obj [("name", .str "f"), ("arguments", .str "\x7bbad")])
      = .ok ⟨.str "f", .obj [], "T"⟩ ∧
    processFunctionCall ("T") (.obj []) = .error ("Invalid function call format") := by
  refine ⟨?_, ?_, ?_, ?_, ?_⟩
  · intro now fc
    unfold processFunctionCall
    by_cases h1 : jsTruthy fc = true <;> by_cases h2 : jsTruthy (getField fc ("name")) = true <;>
      simp [h1, h2]
  · intro now fc r h
    unfold processFunctionCall at h
    split at h
    · simp at h
    · dsimp only at h
      simp only [Except.ok.injEq] at h
      subst h
      exact ⟨rfl, rfl, rfl⟩
  · with_unfolding_all rfl
  · with_unfolding_all rfl
  · with_unfolding_all rfl

/-- Concrete function call value for the C7 witness (arguments absent). -/
def c7Call : JVal := .obj [("name", .str "w")]

/-- Witness for C7: a call without arguments resolves parameters to the
empty object and stamps the supplied timestamp. -/
theorem claim_C7_witness :
    (ProcessedCall.mk (.str "w") (.obj []) ("T")).toolName = getField c7Call ("name") ∧
    (ProcessedCall.mk (.str "w") (.obj []) ("T")).parameters
      = (match jsOr (getField c7Call ("arguments")) (.obj []) with
        | .str s =>
          (match jsonParse s with
           | some v => v
           | none => JVal.obj [])
        | a => a) ∧
    (ProcessedCall.mk (.str "w") (.obj []) ("T")).timestamp = "T" := by
  exact claim_C7.2.1 ("T") c7Call (ProcessedCall.mk (.str "w") (.obj []) ("T"))
    (by with_unfolding_all rfl)

/-- C6: calculateCost resolves the price key by exact table match, else the
first declared key that is a substring of the model name, else the
gpt-3.5-turbo entry; each cost is the per-1000-token product rounded to six
decimals, the total being the rounded sum of the two unrounded costs, with
currency USD and the resolved key echoed; on usage 1000/1000 with model
gpt-4 this yields promptCost 0.03, completionCost 0.06, totalCost 0.09. -/
theorem claim_C6 :
    (∀ u m, (calculateCost u m).model = resolveModelKey m ∧
      (calculateCost u m).currency = "USD" ∧
      (calculateCost u m).promptCost
        = round6 ((u.promptTokens.getD 0) * (priceFor (resolveModelKey m)).1 / 1000) ∧
      (calculateCost u m).completionCost
        = round6 ((u.completionTokens.getD 0) * (priceFor (resolveModelKey m)).2 / 1000) ∧
      (calculateCost u m).totalCost
        = round6 ((u.promptTokens.getD 0) * (priceFor (resolveModelKey m)).1 / 1000
            + (u.completionTokens.getD 0) * (priceFor (resolveModelKey m)).2 / 1000)) ∧
    (∀ m, resolveModelKey m =
      if (priceTable.find? (fun kv => kv.1 == m)).isSome then m
      else ((priceTable.find? (fun kv => strIncludes m kv.1)).map (fun kv => kv.1)).getD
        ("gpt-3.5-turbo")) ∧
    calculateCost ⟨some 1000, some 1000⟩ ("gpt-4") = ⟨"gpt-4", 0.03, 0.06, 0.09, "USD"⟩ := by
  refine ⟨?_, ?_, ?_⟩
  · intro u m
    exact ⟨rfl, rfl, rfl, rfl, rfl⟩
  · intro m
    rfl
  · with_unfolding_all rfl
